import Mathlib

/-!
Shallow embedding of the cluster-snapshot construction logic of
`src/main.py` (`KubernetesQueryAgent.collect_comprehensive_information`).
Kubernetes API calls are modelled as fields of a `Cluster` record: a
listing call is an `Except Unit _` (the `error` case stands for the call
raising an exception), a single-object read is an `Option _` (`none`
stands for the read raising).  Python dictionaries that are written by
repeated assignment are modelled as association lists onto which each
write prepends its pair, so that `List.lookup` (which returns the first
match) observes exactly the dictionary's last-write-wins semantics.
-/

namespace ClusterSnapshot

/-- Boolean test that the first list is an initial run of the second
(character-by-character equality). -/
def headMatches : List Char → List Char → Bool
  | [], _ => true
  | _ :: _, [] => false
  | a :: as, b :: bs => a = b && headMatches as bs

/-- Boolean substring occurrence on character lists: `occursIn pat hay`
is true when `pat` occurs contiguously inside `hay` (Python `pat in hay`). -/
def occursIn (pat : List Char) : List Char → Bool
  | [] => headMatches pat []
  | c :: rest => headMatches pat (c :: rest) || occursIn pat rest

/-- Python substring containment `pat in s` on strings. -/
def strContains (s pat : String) : Bool :=
  occursIn pat.data s.data

/-- Lower-casing of one ASCII character (Python `str.lower` on the
letters the code compares). -/
def charLower (ch : Char) : Char :=
  if 'A' ≤ ch ∧ ch ≤ 'Z' then Char.ofNat (ch.toNat + 32) else ch

/-- Python `s.lower()` (ASCII letters). -/
def strLower (s : String) : String :=
  String.mk (s.data.map charLower)

/-- Characters of a string before the first dash. -/
def takeUntilDash : List Char → List Char
  | [] => []
  | c :: t => if c = '-' then [] else c :: takeUntilDash t

/-- Python `s.split('-')[0]`: the portion of `s` before its first dash
(`s` itself when it has no dash). -/
def splitDashHead (s : String) : String :=
  String.mk (takeUntilDash s.data)

/-- Base-name derivation of `src/main.py` lines 82-88: the part of the
full pod name before the first hyphen, except that a name containing both
of the substrings "harbor" and "core" is mapped to the literal
"harbor-core". -/
def podBaseName (full : String) : String :=
  let base := splitDashHead full
  if strContains full "harbor" && strContains full "core" then "harbor-core"
  else base

/-- Value of a standard base64 alphabet character. -/
def b64Digit (c : Char) : Option Nat :=
  if 'A' ≤ c ∧ c ≤ 'Z' then some (c.toNat - 65)
  else if 'a' ≤ c ∧ c ≤ 'z' then some (c.toNat - 97 + 26)
  else if '0' ≤ c ∧ c ≤ '9' then some (c.toNat - 48 + 52)
  else if c = '+' then some 62
  else if c = '/' then some 63
  else none

/-- Decode one base64 quantum of four characters (the last two may be
padding) into one, two or three bytes. -/
def b64Quantum (a b c d : Char) : Option (List Nat) :=
  match b64Digit a, b64Digit b with
  | some x, some y =>
    if c = '=' then
      if d = '=' then some [x * 4 + y / 16] else none
    else
      match b64Digit c with
      | some z =>
        if d = '=' then some [x * 4 + y / 16, y % 16 * 16 + z / 4]
        else
          match b64Digit d with
          | some w => some [x * 4 + y / 16, y % 16 * 16 + z / 4, z % 4 * 64 + w]
          | none => none
      | none => none
  | _, _ => none

/-- Decode a base64 character stream, quantum by quantum; padding is only
legal in the final quantum, and a stream whose length is not a multiple
of four is rejected (Python `base64.b64decode` raises there, which the
caller catches). -/
def b64Chunks : List Char → Option (List Nat)
  | [] => some []
  | a :: b :: c :: d :: rest =>
    if c = '=' ∨ d = '=' then
      if rest = [] then b64Quantum a b c d else none
    else
      match b64Quantum a b c d, b64Chunks rest with
      | some bs, some more => some (bs ++ more)
      | _, _ => none
  | _ => none

/-- Python `base64.b64decode(s).decode('utf-8')`, modelled with each
decoded byte read back as one character; `none` models the call raising
(invalid base64), which the caller catches. -/
def b64DecodeStr (s : String) : Option String :=
  (b64Chunks s.data).map (fun bs => String.mk (bs.map Char.ofNat))

/-! ## Raw Kubernetes objects (inputs of the builder) -/

/-- A container port declaration (`container.ports[i]`). -/
structure ContainerPort where
  name : Option String
  container_port : Nat
  protocol : String
  host_port : Option Nat
deriving DecidableEq

/-- The `http_get` part of a readiness probe. -/
structure HttpGetProbe where
  path : String
  port : Nat
  scheme : String
deriving DecidableEq

/-- A volume mount declaration of a container; the four fields are
exactly the ones copied into `mount_details` at lines 117-122. -/
structure VolumeMount where
  name : String
  mount_path : String
  sub_path : Option String
  read_only : Option Bool
deriving DecidableEq

/-- An `env[i].value_from` reference. -/
inductive EnvValueFrom where
  | configMapKeyRef (name key : String)
  | secretKeyRef (name key : String)
deriving DecidableEq

/-- An environment entry of a container spec. -/
structure EnvVar where
  name : String
  value : Option String
  value_from : Option EnvValueFrom
deriving DecidableEq

/-- A container spec; `readiness_probe_http_get` models
`container.readiness_probe.http_get` when both are present. -/
structure ContainerSpec where
  name : String
  image : String
  ports : List ContainerPort
  env : List EnvVar
  readiness_probe_http_get : Option HttpGetProbe
  volume_mounts : List VolumeMount
deriving DecidableEq

/-- A pod volume declaration; only its name and whether
`persistent_volume_claim` is set are consulted by the code. -/
structure VolumeSpec where
  name : String
  persistent_volume_claim : Bool
deriving DecidableEq

/-- A pod as returned by `list_pod_for_all_namespaces`. -/
structure Pod where
  name : String
  «namespace» : String
  phase : String
  containers : List ContainerSpec
  volumes : List VolumeSpec
deriving DecidableEq

/-- A namespace listing entry, with the fields stored at lines 63-68. -/
structure NamespaceInfo where
  name : String
  labels : List (String × String)
deriving DecidableEq

/-- A service port declaration. -/
structure ServicePortSpec where
  port : Nat
  target_port : Nat
  protocol : String
deriving DecidableEq

/-- A service as returned by `list_namespaced_service`. -/
structure ServiceSpec where
  name : String
  ports : List ServicePortSpec
deriving DecidableEq

/-- A deployment as returned by `list_namespaced_deployment`. -/
structure DeploymentSpecK where
  name : String
  «namespace» : String
  replicas : Option Nat
  available_replicas : Option Nat
  volumes : List VolumeSpec
deriving DecidableEq

/-- A secret listing entry (metadata only). -/
structure SecretMeta where
  name : String
  «namespace» : String
  type : String
deriving DecidableEq

/-- The Kubernetes API surface used by the builder.  An `Except.error`
listing or a `none` read models the corresponding client call raising an
exception.  `read_namespaced_config_map` and `read_namespaced_secret`
take the object name then the namespace, mirroring the keyword arguments
at lines 144-147 and 153-156, and return the object's `data` mapping. -/
structure Cluster where
  list_namespace : Except Unit (List NamespaceInfo)
  list_pod_for_all_namespaces : Except Unit (List Pod)
  read_namespaced_config_map : String → String → Option (List (String × String))
  read_namespaced_secret : String → String → Option (List (String × String))
  list_namespaced_service : String → Except Unit (List ServiceSpec)
  list_namespaced_deployment : String → Except Unit (List DeploymentSpecK)
  list_namespaced_secret : String → Except Unit (List SecretMeta)

/-! ## Snapshot shape (`cluster_info`) -/

/-- The per-container record stored in `pod_details` (lines 91-98 and
the enrichments that follow); `primary_port` is `none` exactly when the
key is never added (empty port list). -/
structure ContainerDetails where
  name : String
  image : String
  ports : List ContainerPort
  primary_port : Option Nat
  env : List (String × String)
  readiness_probe : Option HttpGetProbe
  volume_mounts : List VolumeMount
deriving DecidableEq

/-- An entry of the snapshot's `pods` list (lines 184-189). -/
structure PodInfo where
  name : String
  full_name : String
  «namespace» : String
  status : String
deriving DecidableEq

/-- An entry of the snapshot's `services` list (lines 202-212). -/
structure ServiceInfo where
  name : String
  «namespace» : String
  ports : List ServicePortSpec
deriving DecidableEq

/-- An entry of the snapshot's `deployments` list (lines 220-235). -/
structure DeploymentInfo where
  name : String
  «namespace» : String
  desired : Option Nat
  available : Option Nat
  volumes : List (String × String)
deriving DecidableEq

/-- An entry of the snapshot's `secrets` list (lines 243-249). -/
structure SecretInfo where
  name : String
  «namespace» : String
  type : String
deriving DecidableEq

/-- The `cluster_info` dictionary.  `pod_status` is `none` when the key
was never added (the builder aborted before line 77); every association
list is written newest-first so `List.lookup` realizes dictionary
lookup. -/
structure ClusterInfo where
  namespaces : List NamespaceInfo
  running_pod_count : Nat
  total_pod_count : Nat
  deployments : List DeploymentInfo
  services : List ServiceInfo
  secrets : List SecretInfo
  pods : List PodInfo
  service_to_namespace : List (String × String)
  pod_details : List (String × ContainerDetails)
  volume_mounts : List (String × VolumeMount)
  pod_env_vars : List (String × String)
  pod_status : Option (List (String × String))
deriving DecidableEq

/-- The keys present in the `cluster_info` dictionary: the eleven keys of
the initializer at lines 46-58, plus `pod_status`, which is only added at
line 77 once the namespace and pod listings have succeeded. -/
def clusterInfoKeys (ci : ClusterInfo) : List String :=
  ["namespaces", "running_pod_count", "total_pod_count", "deployments",
   "services", "secrets", "pods", "service_to_namespace", "pod_details",
   "volume_mounts", "pod_env_vars"] ++
  (match ci.pod_status with
   | some _ => ["pod_status"]
   | none => [])

/-- The initial `cluster_info` value (lines 46-58). -/
def emptyClusterInfo : ClusterInfo :=
  ⟨[], 0, 0, [], [], [], [], [], [], [], [], none⟩

/-! ## The builder -/

/-- Resolution of one environment entry (lines 138-163): a literal value
is kept; a ConfigMap reference is read and its key looked up, with a
failed read or missing key degrading to `none`; a Secret reference is
read, its key required to be present, and the value base64-decoded, any
failure degrading to `none`. -/
def resolveEnv (c : Cluster) (pns : String) (e : EnvVar) : Option String :=
  match e.value with
  | some v => some v
  | none =>
    match e.value_from with
    | none => none
    | some (EnvValueFrom.configMapKeyRef cmName cmKey) =>
      match c.read_namespaced_config_map cmName pns with
      | none => none
      | some data => data.lookup cmKey
    | some (EnvValueFrom.secretKeyRef sName sKey) =>
      match c.read_namespaced_secret sName pns with
      | none => none
      | some data =>
        match data.lookup sKey with
        | none => none
        | some stored => b64DecodeStr stored

/-- Hierarchical key `"{pod_base_name}/{container_name}/{env_name}"`. -/
def envKey (base cname ename : String) : String :=
  base ++ "/" ++ cname ++ "/" ++ ename

/-- Hierarchical key `"{pod_base_name}/{container_name}/{mount_name}"`. -/
def mountKey (base cname mname : String) : String :=
  base ++ "/" ++ cname ++ "/" ++ mname

/-- Convenience key `"{pod_base_name}_db"`. -/
def dbKey (base : String) : String :=
  base ++ "_db"

/-- Hierarchical key `"{pod_base_name}/{container_name}"`. -/
def podKey (base cname : String) : String :=
  base ++ "/" ++ cname

/-- One step of the env loop of lines 137-169: a resolved entry is
written both into the container's own env dictionary and into the global
`pod_env_vars`; an unresolved entry is skipped. -/
def envStep (c : Cluster) (pns base cname : String)
    (acc : List (String × String) × List (String × String)) (e : EnvVar) :
    List (String × String) × List (String × String) :=
  match resolveEnv c pns e with
  | some v => ((e.name, v) :: acc.1, (envKey base cname e.name, v) :: acc.2)
  | none => acc

/-- One step of the volume scan of lines 126-133 for a fixed mount: a pod
volume with the mount's name that is backed by a persistent volume claim
writes the mount details under the hierarchical key, and additionally
under the `_db` convenience key when the container name contains
"database" or "db" (case-insensitive). -/
def volumeStep (base cname : String) (m : VolumeMount)
    (acc : List (String × VolumeMount)) (v : VolumeSpec) :
    List (String × VolumeMount) :=
  if v.name = m.name && v.persistent_volume_claim then
    let acc1 := (mountKey base cname m.name, m) :: acc
    if strContains (strLower cname) "database" || strContains (strLower cname) "db" then
      (dbKey base, m) :: acc1
    else acc1
  else acc

/-- One step of the mount loop of lines 116-133: the mount details are
appended to the container's own list, and the pod's volumes are scanned
for a matching persistent-volume-claim-backed volume. -/
def mountStep (base cname : String) (vols : List VolumeSpec)
    (acc : List VolumeMount × List (String × VolumeMount)) (m : VolumeMount) :
    List VolumeMount × List (String × VolumeMount) :=
  (acc.1 ++ [m], vols.foldl (volumeStep base cname m) acc.2)

/-- Build the `container_details` record for one container (lines
90-177), threading the global `volume_mounts` and `pod_env_vars`
dictionaries through; returns the details together with the two updated
dictionaries. -/
def buildContainer (c : Cluster) (pns base : String) (vols : List VolumeSpec)
    (cont : ContainerSpec)
    (gvm : List (String × VolumeMount)) (genv : List (String × String)) :
    ContainerDetails × List (String × VolumeMount) × List (String × String) :=
  let primary : Option Nat := cont.ports.head?.map (fun p => p.container_port)
  let mres := cont.volume_mounts.foldl (mountStep base cont.name vols) ([], gvm)
  let eres := cont.env.foldl (envStep c pns base cont.name) ([], genv)
  (⟨cont.name, cont.image, cont.ports, primary, eres.1,
    cont.readiness_probe_http_get, mres.1⟩, mres.2, eres.2)

/-- State threaded through the pod loop of lines 82-189. -/
structure BuildState where
  pod_details : List (String × ContainerDetails)
  volume_mounts : List (String × VolumeMount)
  pod_env_vars : List (String × String)
  pods : List PodInfo
deriving DecidableEq

/-- One step of the container loop: build the container's details and
store them under `"{pod_base_name}/{container_name}"` (lines 179-181). -/
def containerStep (c : Cluster) (pns base : String) (vols : List VolumeSpec)
    (st : BuildState) (cont : ContainerSpec) : BuildState :=
  let r := buildContainer c pns base vols cont st.volume_mounts st.pod_env_vars
  { st with
    pod_details := (podKey base cont.name, r.1) :: st.pod_details,
    volume_mounts := r.2.1,
    pod_env_vars := r.2.2 }

/-- The per-pod `PodInfo` record appended at lines 184-189. -/
def podInfoOf (p : Pod) : PodInfo :=
  ⟨podBaseName p.name, p.name, p.«namespace», p.phase⟩

/-- One step of the pod loop (lines 82-189): process every container,
then append the basic pod information. -/
def processPod (c : Cluster) (st : BuildState) (p : Pod) : BuildState :=
  let base := podBaseName p.name
  let st1 := p.containers.foldl (containerStep c p.«namespace» base p.volumes) st
  { st1 with pods := st1.pods ++ [podInfoOf p] }

/-- The service record appended to the `services` list (lines 202-212). -/
def serviceInfoOf (ns : String) (svc : ServiceSpec) : ServiceInfo :=
  ⟨svc.name, ns, svc.ports⟩

/-- One service's writes (lines 196-212): both the original-case name and
the lower-cased name are mapped to the namespace being listed, and the
service is appended to the `services` list. -/
def serviceStep (ns : String) (ci : ClusterInfo) (svc : ServiceSpec) :
    ClusterInfo :=
  { ci with
    service_to_namespace :=
      (strLower svc.name, ns) :: (svc.name, ns) :: ci.service_to_namespace,
    services := ci.services ++ [serviceInfoOf ns svc] }

/-- The service collection loop of lines 191-214: namespaces are taken
from the snapshot's own `namespaces` list; a per-namespace listing
failure is caught and skips only that namespace. -/
def processServices (c : Cluster) (ci : ClusterInfo) : ClusterInfo :=
  (ci.namespaces.map (fun n => n.name)).foldl
    (fun info ns =>
      match c.list_namespaced_service ns with
      | Except.ok svcs => svcs.foldl (serviceStep ns) info
      | Except.error _ => info) ci

/-- The deployment record built at lines 220-235. -/
def deploymentInfoOf (d : DeploymentSpecK) : DeploymentInfo :=
  ⟨d.name, d.«namespace», d.replicas, d.available_replicas,
   d.volumes.map (fun v =>
     (v.name, if v.persistent_volume_claim then "persistent_volume_claim" else "other"))⟩

/-- The deployment collection loop of lines 216-237. -/
def processDeployments (c : Cluster) (ci : ClusterInfo) : ClusterInfo :=
  (ci.namespaces.map (fun n => n.name)).foldl
    (fun info ns =>
      match c.list_namespaced_deployment ns with
      | Except.ok ds =>
        { info with deployments := info.deployments ++ ds.map deploymentInfoOf }
      | Except.error _ => info) ci

/-- The secret record appended to the `secrets` list (lines 243-249). -/
def secretInfoOf (s : SecretMeta) : SecretInfo :=
  ⟨s.name, s.«namespace», s.type⟩

/-- The secret collection loop of lines 239-251. -/
def processSecrets (c : Cluster) (ci : ClusterInfo) : ClusterInfo :=
  (ci.namespaces.map (fun n => n.name)).foldl
    (fun info ns =>
      match c.list_namespaced_secret ns with
      | Except.ok ss =>
        { info with secrets := info.secrets ++ ss.map secretInfoOf }
      | Except.error _ => info) ci

/-- `KubernetesQueryAgent.collect_comprehensive_information` (lines
42-257).  The whole body sits in one `try`: an exception in the namespace
listing or the pod listing jumps to line 255's handler, which returns the
`cluster_info` built so far; the per-namespace service, deployment and
secret listings each have their own inner handler. -/
def collect_comprehensive_information (c : Cluster) : ClusterInfo :=
  let ci := emptyClusterInfo
  match c.list_namespace with
  | Except.error _ => ci
  | Except.ok nss =>
    let ci := { ci with namespaces := nss }
    match c.list_pod_for_all_namespaces with
    | Except.error _ => ci
    | Except.ok allPods =>
      let ci := { ci with
        total_pod_count := allPods.length,
        running_pod_count := (allPods.filter (fun (p : Pod) => p.phase == "Running")).length,
        pod_status := some (allPods.foldl
          (fun m (p : Pod) => (splitDashHead p.name, p.phase) :: m) []) }
      let st := allPods.foldl (processPod c) ⟨[], [], [], []⟩
      let ci := { ci with
        pods := st.pods,
        pod_details := st.pod_details,
        volume_mounts := st.volume_mounts,
        pod_env_vars := st.pod_env_vars }
      processSecrets c (processDeployments c (processServices c ci))

/-! ## Chronological write lists

The builder fills its dictionaries by successive writes; the following
definitions list those writes in chronological order, so that the final
association list (newest first) is their reversal.  They are derived
views used to state and prove properties of the builder. -/

/-- The write to `pod_env_vars` produced by one env entry (empty when
resolution fails). -/
def envWritesOfEntry (c : Cluster) (pns base cname : String) (e : EnvVar) :
    List (String × String) :=
  match resolveEnv c pns e with
  | some v => [(envKey base cname e.name, v)]
  | none => []

/-- The write to the container's own env dictionary produced by one env
entry. -/
def localEnvWriteOfEntry (c : Cluster) (pns : String) (e : EnvVar) :
    List (String × String) :=
  match resolveEnv c pns e with
  | some v => [(e.name, v)]
  | none => []

/-- All `pod_env_vars` writes of one container, in order. -/
def envWritesOfContainer (c : Cluster) (pns base : String)
    (cont : ContainerSpec) : List (String × String) :=
  cont.env.flatMap (envWritesOfEntry c pns base cont.name)

/-- All writes to one container's own env dictionary, in order. -/
def localEnvWrites (c : Cluster) (pns : String) (cont : ContainerSpec) :
    List (String × String) :=
  cont.env.flatMap (localEnvWriteOfEntry c pns)

/-- All `pod_env_vars` writes of one pod, in order. -/
def envWritesOfPod (c : Cluster) (p : Pod) : List (String × String) :=
  p.containers.flatMap (envWritesOfContainer c p.«namespace» (podBaseName p.name))

/-- All `pod_env_vars` writes of a pod listing, in order. -/
def envWrites (c : Cluster) (pods : List Pod) : List (String × String) :=
  pods.flatMap (envWritesOfPod c)

/-- The `volume_mounts` writes produced by one (mount, volume) pair, in
chronological order: the hierarchical key first, then the `_db`
convenience key when the container name matches the database
heuristic. -/
def volWrites (base cname : String) (m : VolumeMount) (v : VolumeSpec) :
    List (String × VolumeMount) :=
  if v.name = m.name && v.persistent_volume_claim then
    (mountKey base cname m.name, m) ::
      (if strContains (strLower cname) "database" || strContains (strLower cname) "db" then
        [(dbKey base, m)]
      else [])
  else []

/-- All `volume_mounts` writes of one container, in order. -/
def mountWritesOfContainer (base : String) (vols : List VolumeSpec)
    (cont : ContainerSpec) : List (String × VolumeMount) :=
  cont.volume_mounts.flatMap (fun m => vols.flatMap (volWrites base cont.name m))

/-- All `volume_mounts` writes of one pod, in order. -/
def mountWritesOfPod (p : Pod) : List (String × VolumeMount) :=
  p.containers.flatMap (mountWritesOfContainer (podBaseName p.name) p.volumes)

/-- All `volume_mounts` writes of a pod listing, in order. -/
def mountWrites (pods : List Pod) : List (String × VolumeMount) :=
  pods.flatMap mountWritesOfPod

/-- The `container_details` record the builder stores for one container:
its env dictionary holds the resolved entries (newest first), its mount
list all declared mounts in order, and `primary_port` the first declared
container port when there is one. -/
def containerDetailsOf (c : Cluster) (pns base : String)
    (vols : List VolumeSpec) (cont : ContainerSpec) : ContainerDetails :=
  ⟨cont.name, cont.image, cont.ports,
   cont.ports.head?.map (fun p => p.container_port),
   (localEnvWrites c pns cont).reverse,
   cont.readiness_probe_http_get, cont.volume_mounts⟩

/-- All `pod_details` writes of one pod, in order. -/
def detailWritesOfPod (c : Cluster) (p : Pod) :
    List (String × ContainerDetails) :=
  p.containers.map (fun ct =>
    (podKey (podBaseName p.name) ct.name,
     containerDetailsOf c p.«namespace» (podBaseName p.name) p.volumes ct))

/-- All `pod_details` writes of a pod listing, in order. -/
def detailWrites (c : Cluster) (pods : List Pod) :
    List (String × ContainerDetails) :=
  pods.flatMap (detailWritesOfPod c)

/-- The `service_to_namespace` writes produced while listing one
namespace, in chronological order (original-case name first, then the
lower-cased name, per service). -/
def serviceWritesNs (c : Cluster) (ns : String) : List (String × String) :=
  match c.list_namespaced_service ns with
  | Except.ok svcs => svcs.flatMap (fun s => [(s.name, ns), (strLower s.name, ns)])
  | Except.error _ => []

/-- All `service_to_namespace` writes, in chronological order. -/
def serviceWrites (c : Cluster) (names : List String) :
    List (String × String) :=
  names.flatMap (serviceWritesNs c)

/-- The `services` list entries collected over a namespace name list. -/
def svcListOf (c : Cluster) (names : List String) : List ServiceInfo :=
  names.flatMap (fun ns =>
    match c.list_namespaced_service ns with
    | Except.ok svcs => svcs.map (serviceInfoOf ns)
    | Except.error _ => [])

/-- The `deployments` list entries collected over a namespace name
list. -/
def depListOf (c : Cluster) (names : List String) : List DeploymentInfo :=
  names.flatMap (fun ns =>
    match c.list_namespaced_deployment ns with
    | Except.ok ds => ds.map deploymentInfoOf
    | Except.error _ => [])

/-- The `secrets` list entries collected over a namespace name list. -/
def secListOf (c : Cluster) (names : List String) : List SecretInfo :=
  names.flatMap (fun ns =>
    match c.list_namespaced_secret ns with
    | Except.ok ss => ss.map secretInfoOf
    | Except.error _ => [])

/-- The per-namespace pod counts derivable from a snapshot's pod list:
each distinct namespace occurring in the list, paired with the number of
its pods. -/
def perNamespacePodCounts (ci : ClusterInfo) : List (String × Nat) :=
  ((ci.pods.map (fun p => p.«namespace»)).dedup).map (fun n =>
    (n, (ci.pods.filter (fun p => p.«namespace» == n)).length))

/-! ## Concrete example inputs

Small fixed clusters used to evaluate the builder at specific inputs. -/

/-- A read that always fails. -/
def exReadNone : String → String → Option (List (String × String)) :=
  fun _ _ => none

/-- A service listing that always raises. -/
def exSvcErr : String → Except Unit (List ServiceSpec) :=
  fun _ => Except.error ()

/-- A deployment listing that always raises. -/
def exDepErr : String → Except Unit (List DeploymentSpecK) :=
  fun _ => Except.error ()

/-- A secret listing that always raises. -/
def exSecErr : String → Except Unit (List SecretMeta) :=
  fun _ => Except.error ()

/-- A pod whose workload name itself contains a hyphen. -/
def exPodMyApp : Pod :=
  ⟨"my-app-76b5665475-jzmwq", "production", "Running", [], []⟩

/-- Cluster with the hyphenated-workload pod. -/
def exClusterHyphen : Cluster :=
  ⟨Except.ok [], Except.ok [exPodMyApp], exReadNone, exReadNone,
   exSvcErr, exDepErr, exSecErr⟩

/-- A pod with a hyphen-free workload name. -/
def exPodSnow : Pod :=
  ⟨"snowflake-76b5665475-jzmwq", "production", "Running", [], []⟩

/-- Cluster with the hyphen-free-workload pod. -/
def exClusterSnow : Cluster :=
  ⟨Except.ok [], Except.ok [exPodSnow], exReadNone, exReadNone,
   exSvcErr, exDepErr, exSecErr⟩

/-- A pod of the harbor-core workload. -/
def exPodHarborCore : Pod :=
  ⟨"harbor-core-xyz-abc", "harbor-system", "Running", [], []⟩

/-- Cluster with the harbor-core pod. -/
def exClusterHarbor : Cluster :=
  ⟨Except.ok [], Except.ok [exPodHarborCore], exReadNone, exReadNone,
   exSvcErr, exDepErr, exSecErr⟩

/-- Cluster with two namespaces and one pod in each. -/
def exClusterTwoNs : Cluster :=
  ⟨Except.ok [⟨"ns1", []⟩, ⟨"ns2", []⟩],
   Except.ok [⟨"alpha-11-aa", "ns1", "Running", [], []⟩,
              ⟨"beta-22-bb", "ns2", "Failed", [], []⟩],
   exReadNone, exReadNone, exSvcErr, exDepErr, exSecErr⟩

/-- First persistent mount of the two-database pod. -/
def exMountOne : VolumeMount := ⟨"data", "/var/lib/one", none, none⟩

/-- Second persistent mount of the two-database pod. -/
def exMountTwo : VolumeMount := ⟨"logs", "/var/lib/two", none, none⟩

/-- First database-named container. -/
def exContDbOne : ContainerSpec := ⟨"db-one", "img:1", [], [], none, [exMountOne]⟩

/-- Second database-named container. -/
def exContDbTwo : ContainerSpec := ⟨"db-two", "img:2", [], [], none, [exMountTwo]⟩

/-- A pod with two database-named containers, each mounting its own
persistent-volume-claim-backed volume. -/
def exPodStore : Pod :=
  ⟨"store-77-aa", "prod", "Running", [exContDbOne, exContDbTwo],
   [⟨"data", true⟩, ⟨"logs", true⟩]⟩

/-- Cluster with the two-database pod. -/
def exClusterStore : Cluster :=
  ⟨Except.ok [], Except.ok [exPodStore], exReadNone, exReadNone,
   exSvcErr, exDepErr, exSecErr⟩

/-- A service listing that always succeeds with one service. -/
def exSvcWeb : String → Except Unit (List ServiceSpec) :=
  fun _ => Except.ok [⟨"websvc", []⟩]

/-- A deployment listing that always succeeds with one deployment. -/
def exDepOk : String → Except Unit (List DeploymentSpecK) :=
  fun _ => Except.ok [⟨"dep1", "n1", some 1, some 1, []⟩]

/-- A secret listing that always succeeds with one secret. -/
def exSecOk : String → Except Unit (List SecretMeta) :=
  fun _ => Except.ok [⟨"sec1", "n1", "Opaque"⟩]

/-- Cluster whose pod listing raises while every per-namespace listing
would succeed. -/
def exClusterPodsFail : Cluster :=
  ⟨Except.ok [⟨"n1", []⟩], Except.error (), exReadNone, exReadNone,
   exSvcWeb, exDepOk, exSecOk⟩

/-- A plain pod with no containers. -/
def exPodPlain : Pod := ⟨"alpha-11-aa", "n1", "Running", [], []⟩

/-- Cluster whose service listing raises but whose other listings
succeed. -/
def exClusterSvcFail : Cluster :=
  ⟨Except.ok [⟨"n1", []⟩], Except.ok [exPodPlain], exReadNone, exReadNone,
   exSvcErr, exDepOk, exSecOk⟩

/-- The same cluster with a succeeding service listing. -/
def exClusterSvcGood : Cluster :=
  ⟨Except.ok [⟨"n1", []⟩], Except.ok [exPodPlain], exReadNone, exReadNone,
   exSvcWeb, exDepOk, exSecOk⟩

/-- An env entry referencing a ConfigMap that does not exist. -/
def exEnvMissingCm : EnvVar :=
  ⟨"FOO", none, some (EnvValueFrom.configMapKeyRef "cm1" "k1")⟩

/-- A container with the dangling ConfigMap reference. -/
def exContWeb : ContainerSpec := ⟨"web", "img:web", [], [exEnvMissingCm], none, []⟩

/-- A pod holding that container. -/
def exPodApp : Pod := ⟨"app-11-aa", "prod", "Running", [exContWeb], []⟩

/-- Cluster where every ConfigMap/Secret read fails. -/
def exClusterMissingCm : Cluster :=
  ⟨Except.ok [], Except.ok [exPodApp], exReadNone, exReadNone,
   exSvcErr, exDepErr, exSecErr⟩

/-- A secret read returning a base64-encoded value for key `pw`. -/
def exReadSecretHello : String → String → Option (List (String × String)) :=
  fun name ns =>
    if name = "s1" ∧ ns = "prod" then some [("pw", "aGVsbG8=")] else none

/-- An env entry resolved from that secret key. -/
def exEnvSecret : EnvVar :=
  ⟨"PASS", none, some (EnvValueFrom.secretKeyRef "s1" "pw")⟩

/-- A container with the secret-backed env entry. -/
def exContSecret : ContainerSpec := ⟨"web", "img:web", [], [exEnvSecret], none, []⟩

/-- A pod holding that container. -/
def exPodSecret : Pod := ⟨"app-11-aa", "prod", "Running", [exContSecret], []⟩

/-- Cluster where the secret read succeeds. -/
def exClusterSecret : Cluster :=
  ⟨Except.ok [], Except.ok [exPodSecret], exReadNone, exReadSecretHello,
   exSvcErr, exDepErr, exSecErr⟩

/-- Service listings that return `Harbor` in `ns1` and `harbor` in
`ns2`. -/
def exSvcCase : String → Except Unit (List ServiceSpec) :=
  fun ns =>
    if ns = "ns1" then Except.ok [⟨"Harbor", []⟩] else Except.ok [⟨"harbor", []⟩]

/-- Cluster with the case-colliding services. -/
def exClusterSvcCase : Cluster :=
  ⟨Except.ok [⟨"ns1", []⟩, ⟨"ns2", []⟩], Except.ok [], exReadNone, exReadNone,
   exSvcCase, exDepErr, exSecErr⟩

/-- A single `Harbor` service in every listed namespace. -/
def exSvcHarborOnly : String → Except Unit (List ServiceSpec) :=
  fun _ => Except.ok [⟨"Harbor", []⟩]

/-- Cluster with one namespace and the single `Harbor` service. -/
def exClusterHarborSvc : Cluster :=
  ⟨Except.ok [⟨"harbor-system", []⟩], Except.ok [], exReadNone, exReadNone,
   exSvcHarborOnly, exDepErr, exSecErr⟩

/-- First replica's container. -/
def exContMainOne : ContainerSpec := ⟨"main", "img:1", [], [], none, []⟩

/-- Second replica's container, same name, different image. -/
def exContMainTwo : ContainerSpec := ⟨"main", "img:2", [], [], none, []⟩

/-- First replica pod. -/
def exPodWebOne : Pod := ⟨"web-11-aa", "prod", "Running", [exContMainOne], []⟩

/-- Second replica pod of the same workload. -/
def exPodWebTwo : Pod := ⟨"web-22-bb", "prod", "Failed", [exContMainTwo], []⟩

/-- Cluster with the two same-workload replicas. -/
def exClusterWeb : Cluster :=
  ⟨Except.ok [], Except.ok [exPodWebOne, exPodWebTwo], exReadNone, exReadNone,
   exSvcErr, exDepErr, exSecErr⟩

/-! ## Generic fold and lookup lemmas -/

/-- A fold whose step leaves a projection unchanged leaves it unchanged
overall. -/
theorem foldl_preserves {α β γ : Type _} (f : β → γ) (step : β → α → β)
    (h : ∀ b a, f (step b a) = f b) :
    ∀ (l : List α) (s : β), f (l.foldl step s) = f s
  | [], _ => rfl
  | a :: l, s => by
    rw [List.foldl_cons, foldl_preserves f step h l, h]

/-- A fold whose step prepends the reversed per-element writes produces
the reversed concatenation of all writes. -/
theorem foldl_prepend_rev {α β : Type _} (w : α → List β)
    (step : List β → α → List β)
    (hstep : ∀ acc x, step acc x = (w x).reverse ++ acc) :
    ∀ (l : List α) (acc : List β),
      l.foldl step acc = (l.flatMap w).reverse ++ acc
  | [], acc => by simp
  | x :: l, acc => by
    rw [List.foldl_cons, hstep, foldl_prepend_rev w step hstep l,
      List.flatMap_cons, List.reverse_append, List.append_assoc]

/-- Special case: a fold that prepends one element per item reverses the
mapped list. -/
theorem foldl_cons_eq {α β : Type _} (h : α → β) :
    ∀ (l : List α) (init : List β),
      l.foldl (fun m x => h x :: m) init = (l.map h).reverse ++ init
  | [], _ => by simp
  | x :: l, init => by
    rw [List.foldl_cons, foldl_cons_eq h l, List.map_cons,
      List.reverse_cons, List.append_assoc, List.singleton_append]

/-- Lookup misses a list none of whose keys is the queried key. -/
theorem lookup_eq_none_of_keys_ne {β : Type _} (k : String) :
    ∀ (l : List (String × β)), (∀ p ∈ l, p.1 ≠ k) → l.lookup k = none
  | [], _ => rfl
  | (a, b) :: l, h => by
    have ha : a ≠ k := h (a, b) (List.mem_cons_self _ _)
    have hb : (k == a) = false := by
      rw [beq_eq_false_iff_ne]
      exact fun hh => ha hh.symm
    simp [List.lookup, hb,
      lookup_eq_none_of_keys_ne k l (fun p hp => h p (List.mem_cons_of_mem _ hp))]

/-- Lookup skips a leading run whose keys all differ from the queried
key. -/
theorem lookup_append_keys_ne {β : Type _} (k : String) :
    ∀ (l1 l2 : List (String × β)), (∀ p ∈ l1, p.1 ≠ k) →
      (l1 ++ l2).lookup k = l2.lookup k
  | [], _, _ => rfl
  | (a, b) :: l1, l2, h => by
    have ha : a ≠ k := h (a, b) (List.mem_cons_self _ _)
    have hb : (k == a) = false := by
      rw [beq_eq_false_iff_ne]
      exact fun hh => ha hh.symm
    simp [List.lookup, hb,
      lookup_append_keys_ne k l1 l2 (fun p hp => h p (List.mem_cons_of_mem _ hp))]

/-- On the reversal of a chronological write list, lookup returns the
value of the last write with the queried key. -/
theorem lookup_last_write {β : Type _} (k : String) (v : β)
    (w1 w2 : List (String × β)) (h : ∀ p ∈ w2, p.1 ≠ k) :
    ((w1 ++ (k, v) :: w2).reverse).lookup k = some v := by
  rw [List.reverse_append, List.reverse_cons, List.append_assoc,
    List.singleton_append]
  rw [lookup_append_keys_ne k w2.reverse _
    (fun p hp => h p (List.mem_reverse.mp hp))]
  simp [List.lookup]

/-- A present key has a lookup result. -/
theorem exists_lookup_of_mem {β : Type _} {k : String} {v : β} :
    ∀ {l : List (String × β)}, (k, v) ∈ l → ∃ u, l.lookup k = some u := by
  intro l
  induction l with
  | nil => intro h; cases h
  | cons p l ih =>
    intro h
    cases p with
    | mk a b =>
      by_cases hk : k = a
      · refine ⟨b, ?_⟩
        have hb : (k == a) = true := by simp [hk]
        simp [List.lookup, hb]
      · have hb : (k == a) = false := by
          rw [beq_eq_false_iff_ne]
          exact hk
        rcases List.mem_cons.mp h with h1 | h2
        · exact absurd (congrArg Prod.fst h1) hk
        · rcases ih h2 with ⟨u, hu⟩
          exact ⟨u, by simp [List.lookup, hb, hu]⟩

/-- A successful lookup result is a member. -/
theorem mem_of_lookup_eq_some {β : Type _} {k : String} {v : β} :
    ∀ {l : List (String × β)}, l.lookup k = some v → (k, v) ∈ l := by
  intro l
  induction l with
  | nil => intro h; cases h
  | cons p l ih =>
    intro h
    cases p with
    | mk a b =>
      by_cases hk : k = a
      · have hb : (k == a) = true := by simp [hk]
        simp only [List.lookup, hb] at h
        cases h
        subst hk
        exact List.mem_cons_self _ _
      · have hb : (k == a) = false := by
          rw [beq_eq_false_iff_ne]
          exact hk
        simp only [List.lookup, hb] at h
        exact List.mem_cons_of_mem _ (ih h)

/-! ## String lemmas -/

/-- Rebuilding a string from its characters is the identity. -/
theorem strMk_data (s : String) : String.mk s.data = s := by
  cases s
  rfl

/-- String append is left-cancellative. -/
theorem strAppend_left_cancel {a x y : String} (h : a ++ x = a ++ y) :
    x = y := by
  have hd : a.data ++ x.data = a.data ++ y.data := congrArg String.data h
  have := List.append_cancel_left hd
  calc x = String.mk x.data := (strMk_data x).symm
    _ = String.mk y.data := by rw [this]
    _ = y := strMk_data y

/-- The env key determines the env-var name once base and container are
fixed. -/
theorem envKey_inj {base cname x y : String}
    (h : envKey base cname x = envKey base cname y) : x = y := by
  unfold envKey at h
  exact strAppend_left_cancel (a := base ++ "/" ++ cname ++ "/")
    (by simpa [String.append_assoc] using h)

/-- `takeUntilDash` stops exactly at an appended dash when the head part
is dash-free. -/
theorem takeUntilDash_append (l r : List Char) (h : '-' ∉ l) :
    takeUntilDash (l ++ '-' :: r) = l := by
  induction l with
  | nil => simp [takeUntilDash]
  | cons c t ih =>
    have hc : c ≠ '-' := fun hc => h (hc ▸ List.mem_cons_self _ _)
    simp only [List.cons_append, takeUntilDash, if_neg hc]
    exact congrArg (List.cons c) (ih (fun hm => h (List.mem_cons_of_mem _ hm)))

/-- `splitDashHead` of `w ++ "-" ++ rest` is `w` when `w` is dash-free. -/
theorem splitDashHead_append (w rest : String) (h : '-' ∉ w.data) :
    splitDashHead (w ++ "-" ++ rest) = w := by
  unfold splitDashHead
  have h1 : (w ++ "-" ++ rest).data = w.data ++ ("-" : String).data ++ rest.data := rfl
  have h2 : ("-" : String).data = ['-'] := by decide
  rw [h1, h2, List.append_assoc, List.singleton_append,
    takeUntilDash_append w.data rest.data h, strMk_data]

/-! ## Builder characterizations -/

/-- One volume-scan step prepends exactly the reversed `volWrites`. -/
theorem volumeStep_eq (base cname : String) (m : VolumeMount)
    (acc : List (String × VolumeMount)) (v : VolumeSpec) :
    volumeStep base cname m acc v = (volWrites base cname m v).reverse ++ acc := by
  unfold volumeStep volWrites
  by_cases h1 : (v.name = m.name && v.persistent_volume_claim) = true
  · rw [if_pos h1, if_pos h1]
    by_cases h2 : (strContains (strLower cname) "database" ||
        strContains (strLower cname) "db") = true
    · rw [if_pos h2, if_pos h2]
      simp
    · rw [if_neg h2, if_neg h2]
      simp
  · rw [if_neg h1, if_neg h1]
    simp

/-- The mount loop of one container: the container's own list gets every
mount appended, and the global dictionary the reversed writes. -/
theorem mountFold_eq (base cname : String) (vols : List VolumeSpec) :
    ∀ (ml : List VolumeMount) (a : List VolumeMount)
      (g : List (String × VolumeMount)),
      ml.foldl (mountStep base cname vols) (a, g) =
        (a ++ ml,
         (ml.flatMap (fun m => vols.flatMap (volWrites base cname m))).reverse ++ g)
  | [], a, g => by simp
  | m :: ml, a, g => by
    rw [List.foldl_cons]
    show (ml.foldl (mountStep base cname vols)
      (a ++ [m], vols.foldl (volumeStep base cname m) g)) = _
    rw [foldl_prepend_rev (volWrites base cname m) _
      (volumeStep_eq base cname m) vols g]
    rw [mountFold_eq base cname vols ml (a ++ [m]) _]
    simp [List.flatMap_cons, List.reverse_append]

/-- The env loop of one container: both dictionaries receive the
reversed chronological writes. -/
theorem envFold_eq (c : Cluster) (pns base cname : String) :
    ∀ (entries : List EnvVar) (a g : List (String × String)),
      entries.foldl (envStep c pns base cname) (a, g) =
        ((entries.flatMap (localEnvWriteOfEntry c pns)).reverse ++ a,
         (entries.flatMap (envWritesOfEntry c pns base cname)).reverse ++ g)
  | [], a, g => by simp
  | e :: entries, a, g => by
    rw [List.foldl_cons]
    cases hre : resolveEnv c pns e with
    | some v =>
      have hstep : envStep c pns base cname (a, g) e =
          ((e.name, v) :: a, (envKey base cname e.name, v) :: g) := by
        unfold envStep
        rw [hre]
      rw [hstep, envFold_eq c pns base cname entries _ _]
      simp [List.flatMap_cons, localEnvWriteOfEntry, envWritesOfEntry, hre,
        List.reverse_append]
    | none =>
      have hstep : envStep c pns base cname (a, g) e = (a, g) := by
        unfold envStep
        rw [hre]
      rw [hstep, envFold_eq c pns base cname entries _ _]
      simp [List.flatMap_cons, localEnvWriteOfEntry, envWritesOfEntry, hre]

/-- `buildContainer` in terms of the derived views. -/
theorem buildContainer_eq (c : Cluster) (pns base : String)
    (vols : List VolumeSpec) (cont : ContainerSpec)
    (gvm : List (String × VolumeMount)) (genv : List (String × String)) :
    buildContainer c pns base vols cont gvm genv =
      (containerDetailsOf c pns base vols cont,
       (mountWritesOfContainer base vols cont).reverse ++ gvm,
       (envWritesOfContainer c pns base cont).reverse ++ genv) := by
  unfold buildContainer
  rw [mountFold_eq base cont.name vols cont.volume_mounts [] gvm]
  rw [envFold_eq c pns base cont.name cont.env [] genv]
  simp [containerDetailsOf, localEnvWrites, mountWritesOfContainer,
    envWritesOfContainer]

/-- One container step of the pod loop, in terms of the derived views. -/
theorem containerStep_eq (c : Cluster) (pns base : String)
    (vols : List VolumeSpec) (st : BuildState) (cont : ContainerSpec) :
    containerStep c pns base vols st cont =
      { st with
        pod_details :=
          (podKey base cont.name, containerDetailsOf c pns base vols cont) ::
            st.pod_details,
        volume_mounts :=
          (mountWritesOfContainer base vols cont).reverse ++ st.volume_mounts,
        pod_env_vars :=
          (envWritesOfContainer c pns base cont).reverse ++ st.pod_env_vars } := by
  unfold containerStep
  rw [buildContainer_eq]

/-- The container loop of one pod, in terms of the derived views. -/
theorem contFold_eq (c : Cluster) (pns base : String)
    (vols : List VolumeSpec) :
    ∀ (conts : List ContainerSpec) (st : BuildState),
      conts.foldl (containerStep c pns base vols) st =
        { st with
          pod_details :=
            (conts.map (fun ct =>
              (podKey base ct.name, containerDetailsOf c pns base vols ct))).reverse ++
              st.pod_details,
          volume_mounts :=
            (conts.flatMap (mountWritesOfContainer base vols)).reverse ++
              st.volume_mounts,
          pod_env_vars :=
            (conts.flatMap (envWritesOfContainer c pns base)).reverse ++
              st.pod_env_vars }
  | [], st => by simp
  | ct :: conts, st => by
    rw [List.foldl_cons, containerStep_eq, contFold_eq c pns base vols conts _]
    simp [List.flatMap_cons, List.reverse_append]

/-- One pod step, in terms of the derived views. -/
theorem processPod_eq (c : Cluster) (st : BuildState) (p : Pod) :
    processPod c st p =
      { st with
        pod_details := (detailWritesOfPod c p).reverse ++ st.pod_details,
        volume_mounts := (mountWritesOfPod p).reverse ++ st.volume_mounts,
        pod_env_vars := (envWritesOfPod c p).reverse ++ st.pod_env_vars,
        pods := st.pods ++ [podInfoOf p] } := by
  unfold processPod
  dsimp only
  rw [contFold_eq]
  simp [detailWritesOfPod, mountWritesOfPod, envWritesOfPod]

/-- The whole pod loop, in terms of the derived views. -/
theorem podFold_eq (c : Cluster) :
    ∀ (l : List Pod) (s : BuildState),
      l.foldl (processPod c) s =
        { s with
          pod_details := (detailWrites c l).reverse ++ s.pod_details,
          volume_mounts := (mountWrites l).reverse ++ s.volume_mounts,
          pod_env_vars := (envWrites c l).reverse ++ s.pod_env_vars,
          pods := s.pods ++ l.map podInfoOf }
  | [], s => by simp [detailWrites, mountWrites, envWrites]
  | p :: l, s => by
    rw [List.foldl_cons, processPod_eq, podFold_eq c l _]
    simp [detailWrites, mountWrites, envWrites, List.flatMap_cons,
      List.reverse_append]

/-- The service loop over one namespace's listing. -/
theorem svcFold_eq (ns : String) :
    ∀ (svcs : List ServiceSpec) (ci : ClusterInfo),
      svcs.foldl (serviceStep ns) ci =
        { ci with
          services := ci.services ++ svcs.map (serviceInfoOf ns),
          service_to_namespace :=
            (svcs.flatMap (fun s => [(s.name, ns), (strLower s.name, ns)])).reverse ++
              ci.service_to_namespace }
  | [], ci => by simp
  | s :: svcs, ci => by
    rw [List.foldl_cons]
    show svcs.foldl (serviceStep ns) (serviceStep ns ci s) = _
    rw [svcFold_eq ns svcs _]
    simp [serviceStep, List.flatMap_cons, List.reverse_append]

/-- The service collection, over an explicit namespace name list. -/
theorem servNamesFold_eq (c : Cluster) :
    ∀ (l : List String) (ci : ClusterInfo),
      l.foldl (fun info ns =>
        match c.list_namespaced_service ns with
        | Except.ok svcs => svcs.foldl (serviceStep ns) info
        | Except.error _ => info) ci =
      { ci with
        services := ci.services ++ svcListOf c l,
        service_to_namespace :=
          (serviceWrites c l).reverse ++ ci.service_to_namespace }
  | [], ci => by simp [svcListOf, serviceWrites]
  | ns :: l, ci => by
    rw [List.foldl_cons]
    cases hsvc : c.list_namespaced_service ns with
    | ok svcs =>
      dsimp only
      rw [svcFold_eq ns svcs ci, servNamesFold_eq c l _]
      simp [svcListOf, serviceWrites, serviceWritesNs, hsvc,
        List.flatMap_cons, List.reverse_append]
    | error e =>
      dsimp only
      rw [servNamesFold_eq c l ci]
      simp [svcListOf, serviceWrites, serviceWritesNs, hsvc, List.flatMap_cons]

/-- `processServices` in terms of the derived views. -/
theorem processServices_eq (c : Cluster) (ci : ClusterInfo) :
    processServices c ci =
      { ci with
        services := ci.services ++ svcListOf c (ci.namespaces.map (fun n => n.name)),
        service_to_namespace :=
          (serviceWrites c (ci.namespaces.map (fun n => n.name))).reverse ++
            ci.service_to_namespace } := by
  unfold processServices
  exact servNamesFold_eq c _ ci

/-- The deployment collection, over an explicit namespace name list. -/
theorem depNamesFold_eq (c : Cluster) :
    ∀ (l : List String) (ci : ClusterInfo),
      l.foldl (fun info ns =>
        match c.list_namespaced_deployment ns with
        | Except.ok ds =>
          { info with deployments := info.deployments ++ ds.map deploymentInfoOf }
        | Except.error _ => info) ci =
      { ci with deployments := ci.deployments ++ depListOf c l }
  | [], ci => by simp [depListOf]
  | ns :: l, ci => by
    rw [List.foldl_cons]
    cases hd : c.list_namespaced_deployment ns with
    | ok ds =>
      dsimp only
      rw [depNamesFold_eq c l _]
      simp [depListOf, hd, List.flatMap_cons]
    | error e =>
      dsimp only
      rw [depNamesFold_eq c l ci]
      simp [depListOf, hd, List.flatMap_cons]

/-- `processDeployments` in terms of the derived views. -/
theorem processDeployments_eq (c : Cluster) (ci : ClusterInfo) :
    processDeployments c ci =
      { ci with deployments :=
          ci.deployments ++ depListOf c (ci.namespaces.map (fun n => n.name)) } := by
  unfold processDeployments
  exact depNamesFold_eq c _ ci

/-- The secret collection, over an explicit namespace name list. -/
theorem secNamesFold_eq (c : Cluster) :
    ∀ (l : List String) (ci : ClusterInfo),
      l.foldl (fun info ns =>
        match c.list_namespaced_secret ns with
        | Except.ok ss =>
          { info with secrets := info.secrets ++ ss.map secretInfoOf }
        | Except.error _ => info) ci =
      { ci with secrets := ci.secrets ++ secListOf c l }
  | [], ci => by simp [secListOf]
  | ns :: l, ci => by
    rw [List.foldl_cons]
    cases hs : c.list_namespaced_secret ns with
    | ok ss =>
      dsimp only
      rw [secNamesFold_eq c l _]
      simp [secListOf, hs, List.flatMap_cons]
    | error e =>
      dsimp only
      rw [secNamesFold_eq c l ci]
      simp [secListOf, hs, List.flatMap_cons]

/-- `processSecrets` in terms of the derived views. -/
theorem processSecrets_eq (c : Cluster) (ci : ClusterInfo) :
    processSecrets c ci =
      { ci with secrets :=
          ci.secrets ++ secListOf c (ci.namespaces.map (fun n => n.name)) } := by
  unfold processSecrets
  exact secNamesFold_eq c _ ci

/-- The snapshot produced when the namespace listing raises. -/
theorem collect_err_ns (c : Cluster) (e : Unit)
    (h : c.list_namespace = Except.error e) :
    collect_comprehensive_information c = emptyClusterInfo := by
  unfold collect_comprehensive_information
  rw [h]

/-- The snapshot produced when the pod listing raises: the namespaces
are kept, everything else stays at its initial value — in particular no
services, deployments or secrets are collected. -/
theorem collect_err_pods (c : Cluster) (nss : List NamespaceInfo) (e : Unit)
    (hns : c.list_namespace = Except.ok nss)
    (hp : c.list_pod_for_all_namespaces = Except.error e) :
    collect_comprehensive_information c =
      { emptyClusterInfo with namespaces := nss } := by
  unfold collect_comprehensive_information
  rw [hns, hp]

/-- The snapshot produced on the fully successful path, with every field
given by the derived views. -/
theorem collect_ok (c : Cluster) (nss : List NamespaceInfo)
    (pods : List Pod)
    (hns : c.list_namespace = Except.ok nss)
    (hp : c.list_pod_for_all_namespaces = Except.ok pods) :
    collect_comprehensive_information c =
      { namespaces := nss,
        running_pod_count :=
          (pods.filter (fun p => p.phase == "Running")).length,
        total_pod_count := pods.length,
        deployments := depListOf c (nss.map (fun n => n.name)),
        services := svcListOf c (nss.map (fun n => n.name)),
        secrets := secListOf c (nss.map (fun n => n.name)),
        pods := pods.map podInfoOf,
        service_to_namespace := (serviceWrites c (nss.map (fun n => n.name))).reverse,
        pod_details := (detailWrites c pods).reverse,
        volume_mounts := (mountWrites pods).reverse,
        pod_env_vars := (envWrites c pods).reverse,
        pod_status :=
          some ((pods.map (fun p => (splitDashHead p.name, p.phase))).reverse) } := by
  unfold collect_comprehensive_information
  rw [hns, hp]
  dsimp only
  rw [foldl_cons_eq (fun (p : Pod) => (splitDashHead p.name, p.phase)) pods []]
  rw [podFold_eq c pods ⟨[], [], [], []⟩]
  rw [processServices_eq, processDeployments_eq, processSecrets_eq]
  simp [emptyClusterInfo]

/-! ## Shared consequences of the builder characterization -/

/-- In every snapshot the `pods` list length is the `total_pod_count`. -/
theorem collect_total_eq_length (c : Cluster) :
    (collect_comprehensive_information c).total_pod_count =
      (collect_comprehensive_information c).pods.length := by
  cases hns : c.list_namespace with
  | error e =>
    rw [collect_err_ns c e hns]
    rfl
  | ok nss =>
    cases hp : c.list_pod_for_all_namespaces with
    | error e =>
      rw [collect_err_pods c nss e hns hp]
      rfl
    | ok pods =>
      rw [collect_ok c nss pods hns hp]
      exact (List.length_map pods podInfoOf).symm

/-! ## Claim C6 -/

/-- Claim C6: in every snapshot, `running_pod_count` equals the number of
pods in that snapshot's pod list whose phase is Running, and
`total_pod_count` equals the length of that pod list. -/
theorem C6_pod_counts (c : Cluster) :
    (collect_comprehensive_information c).running_pod_count =
      ((collect_comprehensive_information c).pods.filter
        (fun p => p.status == "Running")).length ∧
    (collect_comprehensive_information c).total_pod_count =
      (collect_comprehensive_information c).pods.length := by
  refine ⟨?_, collect_total_eq_length c⟩
  cases hns : c.list_namespace with
  | error e =>
    rw [collect_err_ns c e hns]
    rfl
  | ok nss =>
    cases hp : c.list_pod_for_all_namespaces with
    | error e =>
      rw [collect_err_pods c nss e hns hp]
      rfl
    | ok pods =>
      rw [collect_ok c nss pods hns hp]
      dsimp only
      rw [List.filter_map, List.length_map]
      rfl

/-! ## Claim C1 -/

/-- Claim C1 counterexample: the pod `my-app-76b5665475-jzmwq` has a full
name of the form workload-replicasethash-podhash with hyphenated workload
`my-app`, yet the snapshot's pods list records base name `my`, not
`my-app`: the generic rule keeps only the part before the FIRST hyphen. -/
theorem C1_counterexample :
    (collect_comprehensive_information exClusterHyphen).pods.map
      (fun p => p.name) = ["my"] ∧ "my" ≠ "my-app" := by
  constructor
  · decide
  · decide

/-- Claim C1 (amended): the pods-list base name is `podBaseName` of the
full name; for a full name `w ++ "-" ++ rest` with `w` hyphen-free and
the harbor-core override not applying, the base name is `w` (so a
hyphen-free workload followed by the two generated suffixes yields the
workload); and any name containing both "harbor" and "core" yields the
literal `harbor-core`. -/
theorem C1_base_name_amended :
    (∀ (c : Cluster) (nss : List NamespaceInfo) (pods : List Pod),
      c.list_namespace = Except.ok nss →
      c.list_pod_for_all_namespaces = Except.ok pods →
      (collect_comprehensive_information c).pods = pods.map podInfoOf) ∧
    (∀ w rest : String, '-' ∉ w.data →
      ¬(strContains (w ++ "-" ++ rest) "harbor" = true ∧
        strContains (w ++ "-" ++ rest) "core" = true) →
      podBaseName (w ++ "-" ++ rest) = w) ∧
    (∀ s : String, strContains s "harbor" = true → strContains s "core" = true →
      podBaseName s = "harbor-core") := by
  refine ⟨?_, ?_, ?_⟩
  · intro c nss pods hns hp
    rw [collect_ok c nss pods hns hp]
  · intro w rest hdash hhc
    have hcond : (strContains (w ++ "-" ++ rest) "harbor" &&
        strContains (w ++ "-" ++ rest) "core") = false := by
      cases hA : strContains (w ++ "-" ++ rest) "harbor" <;>
        cases hB : strContains (w ++ "-" ++ rest) "core" <;> simp_all
    unfold podBaseName
    rw [hcond]
    exact splitDashHead_append w rest hdash
  · intro s h1 h2
    unfold podBaseName
    rw [h1, h2]
    rfl

/-- Claim C1 witness: the amended statement evaluated at the concrete
inputs `snowflake-76b5665475-jzmwq` and `harbor-core-xyz-abc`, and at the
concrete snowflake cluster. -/
theorem C1_witness :
    podBaseName ("snowflake" ++ "-" ++ "76b5665475-jzmwq") = "snowflake" ∧
    podBaseName "harbor-core-xyz-abc" = "harbor-core" ∧
    (collect_comprehensive_information exClusterSnow).pods =
      [exPodSnow].map podInfoOf := by
  refine ⟨?_, ?_, ?_⟩
  · exact C1_base_name_amended.2.1 "snowflake" "76b5665475-jzmwq"
      (by decide) (by decide)
  · exact C1_base_name_amended.2.2 "harbor-core-xyz-abc" (by decide) (by decide)
  · exact C1_base_name_amended.1 exClusterSnow [] [exPodSnow] rfl rfl

/-! ## Claim C2 -/

/-- Claim C2 counterexample: for the pod `harbor-core-xyz-abc` the pods
list uses base name `harbor-core`, but `pod_status` has no entry under
`harbor-core`: its key is the plain first segment `harbor`, because the
dictionary comprehension at line 78 skips the harbor-core special case. -/
theorem C2_counterexample :
    ((collect_comprehensive_information exClusterHarbor).pod_status.getD
      []).lookup "harbor-core" = none ∧
    ((collect_comprehensive_information exClusterHarbor).pod_status.getD
      []).lookup "harbor" = some "Running" ∧
    (collect_comprehensive_information exClusterHarbor).pods.map
      (fun p => p.name) = ["harbor-core"] := by
  refine ⟨?_, ?_, ?_⟩ <;> decide

/-- Claim C2 (amended): `pod_status` is keyed by the portion of the full
pod name before the first hyphen, WITHOUT the harbor-core special case:
every pod has an entry under `splitDashHead` of its full name, holding
the phase of some pod of the listing sharing that first segment. -/
theorem C2_pod_status_amended (c : Cluster) (nss : List NamespaceInfo)
    (pods : List Pod)
    (hns : c.list_namespace = Except.ok nss)
    (hp : c.list_pod_for_all_namespaces = Except.ok pods) :
    ∀ p ∈ pods, ∃ st ph,
      (collect_comprehensive_information c).pod_status = some st ∧
      st.lookup (splitDashHead p.name) = some ph ∧
      ∃ q ∈ pods, splitDashHead q.name = splitDashHead p.name ∧ q.phase = ph := by
  intro p hmem
  rw [collect_ok c nss pods hns hp]
  refine ⟨(pods.map (fun p => (splitDashHead p.name, p.phase))).reverse, ?_⟩
  have hin : (splitDashHead p.name, p.phase) ∈
      (pods.map (fun p => (splitDashHead p.name, p.phase))).reverse := by
    rw [List.mem_reverse]
    exact List.mem_map_of_mem _ hmem
  rcases exists_lookup_of_mem hin with ⟨ph, hph⟩
  refine ⟨ph, rfl, hph, ?_⟩
  have hmem2 := mem_of_lookup_eq_some hph
  rw [List.mem_reverse] at hmem2
  rcases List.mem_map.mp hmem2 with ⟨q, hq, hqe⟩
  exact ⟨q, hq, congrArg Prod.fst hqe, congrArg Prod.snd hqe⟩

/-- Claim C2 witness: the amended statement evaluated at the concrete
harbor cluster. -/
theorem C2_witness :
    ∃ st ph,
      (collect_comprehensive_information exClusterHarbor).pod_status = some st ∧
      st.lookup (splitDashHead exPodHarborCore.name) = some ph ∧
      ∃ q ∈ [exPodHarborCore],
        splitDashHead q.name = splitDashHead exPodHarborCore.name ∧
        q.phase = ph :=
  C2_pod_status_amended exClusterHarbor [] [exPodHarborCore] rfl rfl
    exPodHarborCore (List.mem_singleton.mpr rfl)

/-! ## Claim C3 -/

/-- Claim C3 counterexample: the snapshot dictionary of a successfully
built two-namespace snapshot has exactly the twelve keys below — none of
them is a per-namespace pod-count index, so the snapshot does not contain
per-namespace pod counts. -/
theorem C3_counterexample :
    clusterInfoKeys (collect_comprehensive_information exClusterTwoNs) =
      ["namespaces", "running_pod_count", "total_pod_count", "deployments",
       "services", "secrets", "pods", "service_to_namespace", "pod_details",
       "volume_mounts", "pod_env_vars", "pod_status"] ∧
    (collect_comprehensive_information exClusterTwoNs).total_pod_count = 2 := by
  constructor
  · decide
  · decide

/-- Per-namespace pod counts derived from any pod list sum to its
length. -/
theorem perNs_sum (ps : List PodInfo) :
    (((ps.map (fun p => p.«namespace»)).dedup).map (fun n =>
      (ps.filter (fun p => p.«namespace» == n)).length)).sum = ps.length := by
  have h1 : ∀ n : String, (ps.filter (fun p => p.«namespace» == n)).length
      = (ps.map (fun p => p.«namespace»)).count n := by
    intro n
    rw [← List.countP_eq_length_filter]
    rw [show ((ps.map (fun p => p.«namespace»)).count n)
      = (ps.map (fun p => p.«namespace»)).countP (fun x => x == n) from rfl]
    rw [List.countP_map]
    rfl
  calc (((ps.map (fun p => p.«namespace»)).dedup).map (fun n =>
        (ps.filter (fun p => p.«namespace» == n)).length)).sum
      = (((ps.map (fun p => p.«namespace»)).dedup).map (fun n =>
        (ps.map (fun p => p.«namespace»)).count n)).sum := by
        refine congrArg List.sum (List.map_congr_left ?_)
        intro n _
        exact h1 n
    _ = (ps.map (fun p => p.«namespace»)).length :=
        List.sum_map_count_dedup_eq_length _
    _ = ps.length := List.length_map _ _

/-- Claim C3 (amended): the snapshot holds no per-namespace pod-count
index; the counts derived from its pod list by grouping on the namespace
field always sum to `total_pod_count`. -/
theorem C3_per_namespace_sum (c : Cluster) :
    ((perNamespacePodCounts (collect_comprehensive_information c)).map
      (fun e => e.2)).sum =
      (collect_comprehensive_information c).total_pod_count := by
  unfold perNamespacePodCounts
  rw [List.map_map, collect_total_eq_length c]
  have := perNs_sum (collect_comprehensive_information c).pods
  calc ((((collect_comprehensive_information c).pods.map
        (fun p => p.«namespace»)).dedup).map ((fun e => e.2) ∘ (fun n =>
          (n, ((collect_comprehensive_information c).pods.filter
            (fun p => p.«namespace» == n)).length)))).sum
      = ((((collect_comprehensive_information c).pods.map
        (fun p => p.«namespace»)).dedup).map (fun n =>
          ((collect_comprehensive_information c).pods.filter
            (fun p => p.«namespace» == n)).length)).sum := rfl
    _ = (collect_comprehensive_information c).pods.length := this

/-! ## Claim C10 -/

/-- Claim C10: when two distinct pods share a base name and a container
name, the `pod_details` entry under `"{base_name}/{container_name}"`
holds the container details of the pod that appears later in the listing
(dictionary overwrite, last-write-wins), while the pods list and
`total_pod_count` still reflect both pods. -/
theorem C10_pod_details_last_write (c : Cluster) (nss : List NamespaceInfo)
    (p1 p2 : Pod) (ct1 ct2 : ContainerSpec)
    (hns : c.list_namespace = Except.ok nss)
    (hp : c.list_pod_for_all_namespaces = Except.ok [p1, p2])
    (hbase : podBaseName p1.name = podBaseName p2.name)
    (hc1 : p1.containers = [ct1])
    (hc2 : p2.containers = [ct2])
    (hname : ct1.name = ct2.name) :
    (collect_comprehensive_information c).pod_details.lookup
        (podKey (podBaseName p2.name) ct2.name) =
      some (containerDetailsOf c p2.«namespace» (podBaseName p2.name)
        p2.volumes ct2) ∧
    (collect_comprehensive_information c).pods = [podInfoOf p1, podInfoOf p2] ∧
    (collect_comprehensive_information c).total_pod_count = 2 := by
  rw [collect_ok c nss [p1, p2] hns hp]
  refine ⟨?_, rfl, rfl⟩
  have hw : detailWrites c [p1, p2] =
      [(podKey (podBaseName p1.name) ct1.name,
        containerDetailsOf c p1.«namespace» (podBaseName p1.name)
          p1.volumes ct1)] ++
      (podKey (podBaseName p2.name) ct2.name,
        containerDetailsOf c p2.«namespace» (podBaseName p2.name)
          p2.volumes ct2) :: [] := by
    simp [detailWrites, detailWritesOfPod, hc1, hc2]
  dsimp only
  rw [hw]
  exact lookup_last_write _ _ _ [] (by simp)

/-- Claim C10 witness: the theorem evaluated at the two concrete
same-workload replicas. -/
theorem C10_witness :
    (collect_comprehensive_information exClusterWeb).pod_details.lookup
        (podKey (podBaseName exPodWebTwo.name) exContMainTwo.name) =
      some (containerDetailsOf exClusterWeb exPodWebTwo.«namespace»
        (podBaseName exPodWebTwo.name) exPodWebTwo.volumes exContMainTwo) ∧
    (collect_comprehensive_information exClusterWeb).pods =
      [podInfoOf exPodWebOne, podInfoOf exPodWebTwo] ∧
    (collect_comprehensive_information exClusterWeb).total_pod_count = 2 :=
  C10_pod_details_last_write exClusterWeb [] exPodWebOne exPodWebTwo
    exContMainOne exContMainTwo rfl rfl (by decide) rfl rfl (by decide)

/-! ## Claim C4 -/

/-- Claim C4 counterexample: in the concrete pod with two
database-matching containers (`db-one` mounting `exMountOne` first,
`db-two` mounting `exMountTwo` second, both persistent-volume-claim
backed), the `store_db` convenience key holds the SECOND container's
mount details, not the first matching container's. -/
theorem C4_counterexample :
    (collect_comprehensive_information exClusterStore).volume_mounts.lookup
      (dbKey "store") = some exMountTwo ∧ exMountTwo ≠ exMountOne := by
  constructor
  · decide
  · decide

/-- Claim C4 (amended): with two database-matching containers in the same
pod, each with one persistent-volume-claim-backed mount, the `_db`
convenience key holds the mount details of the LAST matching container in
iteration order (dictionary overwrite), not the first. -/
theorem C4_db_key_last_write (c : Cluster) (nss : List NamespaceInfo)
    (p : Pod) (ct1 ct2 : ContainerSpec) (m1 m2 : VolumeMount)
    (v1 v2 : VolumeSpec)
    (hns : c.list_namespace = Except.ok nss)
    (hp : c.list_pod_for_all_namespaces = Except.ok [p])
    (hcs : p.containers = [ct1, ct2])
    (hvols : p.volumes = [v1, v2])
    (hm1 : ct1.volume_mounts = [m1])
    (hm2 : ct2.volume_mounts = [m2])
    (hv1 : v1.name = m1.name) (hv1p : v1.persistent_volume_claim = true)
    (hv2 : v2.name = m2.name) (hv2p : v2.persistent_volume_claim = true)
    (hnames : m1.name ≠ m2.name)
    (hdb1 : (strContains (strLower ct1.name) "database" ||
      strContains (strLower ct1.name) "db") = true)
    (hdb2 : (strContains (strLower ct2.name) "database" ||
      strContains (strLower ct2.name) "db") = true) :
    (collect_comprehensive_information c).volume_mounts.lookup
      (dbKey (podBaseName p.name)) = some m2 := by
  rw [collect_ok c nss [p] hns hp]
  have hw : mountWrites [p] =
      [(mountKey (podBaseName p.name) ct1.name m1.name, m1),
       (dbKey (podBaseName p.name), m1),
       (mountKey (podBaseName p.name) ct2.name m2.name, m2)] ++
      (dbKey (podBaseName p.name), m2) :: [] := by
    have hne1 : ¬ m2.name = m1.name := fun hh => hnames hh.symm
    have hne2 : ¬ m1.name = m2.name := hnames
    simp [mountWrites, mountWritesOfPod, mountWritesOfContainer, hcs, hvols,
      hm1, hm2, volWrites, hv1, hv2, hv1p, hv2p, hne1, hne2, hdb1, hdb2]
  dsimp only
  rw [hw]
  exact lookup_last_write _ _ _ [] (by simp)

/-- Claim C4 witness: the amended statement evaluated at the concrete
two-database pod; the `store_db` key holds the second container's mount
details. -/
theorem C4_witness :
    (collect_comprehensive_information exClusterStore).volume_mounts.lookup
      (dbKey (podBaseName exPodStore.name)) = some exMountTwo :=
  C4_db_key_last_write exClusterStore [] exPodStore exContDbOne exContDbTwo
    exMountOne exMountTwo ⟨"data", true⟩ ⟨"logs", true⟩ rfl rfl rfl rfl
    rfl rfl rfl rfl rfl rfl (by decide) (by decide) (by decide)

/-! ## Membership in env write lists -/

/-- Every write in one entry's local write list records a successful
resolution under the entry's name. -/
theorem mem_localWriteOfEntry {c : Cluster} {pns : String} {e : EnvVar}
    {pair : String × String}
    (h : pair ∈ localEnvWriteOfEntry c pns e) :
    resolveEnv c pns e = some pair.2 ∧ pair.1 = e.name := by
  unfold localEnvWriteOfEntry at h
  cases hre : resolveEnv c pns e with
  | some v =>
    rw [hre] at h
    have := List.mem_singleton.mp h
    subst this
    exact ⟨rfl, rfl⟩
  | none =>
    rw [hre] at h
    cases h

/-- Every write in one entry's global write list records a successful
resolution under the entry's hierarchical key. -/
theorem mem_envWritesOfEntry {c : Cluster} {pns base cname : String}
    {e : EnvVar} {pair : String × String}
    (h : pair ∈ envWritesOfEntry c pns base cname e) :
    resolveEnv c pns e = some pair.2 ∧ pair.1 = envKey base cname e.name := by
  unfold envWritesOfEntry at h
  cases hre : resolveEnv c pns e with
  | some v =>
    rw [hre] at h
    have := List.mem_singleton.mp h
    subst this
    exact ⟨rfl, rfl⟩
  | none =>
    rw [hre] at h
    cases h

/-- Every write in the whole `pod_env_vars` write list comes from some
pod, container and env entry that resolved successfully. -/
theorem mem_envWrites {c : Cluster} {pods : List Pod}
    {pair : String × String} (h : pair ∈ envWrites c pods) :
    ∃ p ∈ pods, ∃ ct ∈ p.containers, ∃ e ∈ ct.env,
      resolveEnv c p.«namespace» e = some pair.2 ∧
      pair.1 = envKey (podBaseName p.name) ct.name e.name := by
  unfold envWrites at h
  rcases List.mem_flatMap.mp h with ⟨p, hpmem, hpw⟩
  unfold envWritesOfPod at hpw
  rcases List.mem_flatMap.mp hpw with ⟨ct, hctmem, hctw⟩
  unfold envWritesOfContainer at hctw
  rcases List.mem_flatMap.mp hctw with ⟨e, hemem, hew⟩
  rcases mem_envWritesOfEntry hew with ⟨hres, hkey⟩
  exact ⟨p, hpmem, ct, hctmem, e, hemem, hres, hkey⟩

/-! ## Claim C7 -/

/-- Claim C7: an environment entry whose ConfigMap or Secret reference
cannot be resolved — the object read fails, or the key is missing from
the object's data — leaves no trace: resolution yields no value (four
failure cases), the container's env dictionary has no entry under a name
all of whose entries failed to resolve, and `pod_env_vars` has no entry
under a hierarchical key all of whose producing entries failed to
resolve.  The builder is a total function, so the snapshot build always
completes. -/
theorem C7_unresolved_env_absent :
    (∀ (c : Cluster) (pns nm cmName cmKey : String),
      c.read_namespaced_config_map cmName pns = none →
      resolveEnv c pns ⟨nm, none, some (EnvValueFrom.configMapKeyRef cmName cmKey)⟩ = none) ∧
    (∀ (c : Cluster) (pns nm cmName cmKey : String)
      (data : List (String × String)),
      c.read_namespaced_config_map cmName pns = some data →
      data.lookup cmKey = none →
      resolveEnv c pns ⟨nm, none, some (EnvValueFrom.configMapKeyRef cmName cmKey)⟩ = none) ∧
    (∀ (c : Cluster) (pns nm sName sKey : String),
      c.read_namespaced_secret sName pns = none →
      resolveEnv c pns ⟨nm, none, some (EnvValueFrom.secretKeyRef sName sKey)⟩ = none) ∧
    (∀ (c : Cluster) (pns nm sName sKey : String)
      (data : List (String × String)),
      c.read_namespaced_secret sName pns = some data →
      data.lookup sKey = none →
      resolveEnv c pns ⟨nm, none, some (EnvValueFrom.secretKeyRef sName sKey)⟩ = none) ∧
    (∀ (c : Cluster) (pns base : String) (vols : List VolumeSpec)
      (cont : ContainerSpec) (gvm : List (String × VolumeMount))
      (genv : List (String × String)) (n : String),
      (∀ e ∈ cont.env, e.name = n → resolveEnv c pns e = none) →
      (buildContainer c pns base vols cont gvm genv).1.env.lookup n = none) ∧
    (∀ (c : Cluster) (nss : List NamespaceInfo) (pods : List Pod) (k : String),
      c.list_namespace = Except.ok nss →
      c.list_pod_for_all_namespaces = Except.ok pods →
      (∀ p ∈ pods, ∀ ct ∈ p.containers, ∀ e ∈ ct.env,
        envKey (podBaseName p.name) ct.name e.name = k →
        resolveEnv c p.«namespace» e = none) →
      (collect_comprehensive_information c).pod_env_vars.lookup k = none) := by
  refine ⟨?_, ?_, ?_, ?_, ?_, ?_⟩
  · intro c pns nm cmName cmKey h
    simp [resolveEnv, h]
  · intro c pns nm cmName cmKey data h1 h2
    simp [resolveEnv, h1, h2]
  · intro c pns nm sName sKey h
    simp [resolveEnv, h]
  · intro c pns nm sName sKey data h1 h2
    simp [resolveEnv, h1, h2]
  · intro c pns base vols cont gvm genv n hall
    rw [buildContainer_eq]
    dsimp only [containerDetailsOf]
    apply lookup_eq_none_of_keys_ne
    intro pair hmem
    rw [List.mem_reverse] at hmem
    unfold localEnvWrites at hmem
    rcases List.mem_flatMap.mp hmem with ⟨e, hemem, hew⟩
    rcases mem_localWriteOfEntry hew with ⟨hres, hkey⟩
    intro hk
    rw [hk] at hkey
    rw [hall e hemem hkey.symm] at hres
    cases hres
  · intro c nss pods k hns hp hall
    rw [collect_ok c nss pods hns hp]
    dsimp only
    apply lookup_eq_none_of_keys_ne
    intro pair hmem
    rw [List.mem_reverse] at hmem
    rcases mem_envWrites hmem with ⟨p, hpmem, ct, hctmem, e, hemem, hres, hkey⟩
    intro hk
    rw [hk] at hkey
    rw [hall p hpmem ct hctmem e hemem hkey.symm] at hres
    cases hres

/-- Claim C7 witness: the dangling ConfigMap reference `FOO` of container
`web` of pod `app-11-aa` is absent from both its env dictionary and from
`pod_env_vars`, at the concrete cluster where every read fails. -/
theorem C7_witness :
    resolveEnv exClusterMissingCm "prod" exEnvMissingCm = none ∧
    (buildContainer exClusterMissingCm "prod" "app" [] exContWeb [] []).1.env.lookup
      "FOO" = none ∧
    (collect_comprehensive_information exClusterMissingCm).pod_env_vars.lookup
      "app/web/FOO" = none := by
  refine ⟨?_, ?_, ?_⟩
  · exact C7_unresolved_env_absent.1 exClusterMissingCm "prod" "FOO" "cm1" "k1" rfl
  · exact C7_unresolved_env_absent.2.2.2.2.1 exClusterMissingCm "prod" "app" []
      exContWeb [] [] "FOO" (by decide)
  · exact C7_unresolved_env_absent.2.2.2.2.2 exClusterMissingCm [] [exPodApp]
      "app/web/FOO" rfl rfl (by decide)

/-! ## Claim C8 -/

/-- Claim C8: an environment variable resolved from a Secret key is
stored — in the container's env dictionary and in `pod_env_vars` — as the
base64-decoded plaintext of the secret's stored value (the entry used is
the last one with that name, per dictionary overwrite). -/
theorem C8_secret_decoded :
    (∀ (c : Cluster) (pns base : String) (vols : List VolumeSpec)
      (cont : ContainerSpec) (gvm : List (String × VolumeMount))
      (genv : List (String × String)) (pre post : List EnvVar) (e : EnvVar)
      (sName sKey stored plain : String) (data : List (String × String)),
      cont.env = pre ++ e :: post →
      (∀ e2 ∈ post, e2.name ≠ e.name) →
      e.value = none →
      e.value_from = some (EnvValueFrom.secretKeyRef sName sKey) →
      c.read_namespaced_secret sName pns = some data →
      data.lookup sKey = some stored →
      b64DecodeStr stored = some plain →
      (buildContainer c pns base vols cont gvm genv).1.env.lookup e.name =
        some plain) ∧
    (∀ (c : Cluster) (nss : List NamespaceInfo) (p : Pod)
      (cont : ContainerSpec) (pre post : List EnvVar) (e : EnvVar)
      (sName sKey stored plain : String) (data : List (String × String)),
      c.list_namespace = Except.ok nss →
      c.list_pod_for_all_namespaces = Except.ok [p] →
      p.containers = [cont] →
      cont.env = pre ++ e :: post →
      (∀ e2 ∈ post, e2.name ≠ e.name) →
      e.value = none →
      e.value_from = some (EnvValueFrom.secretKeyRef sName sKey) →
      c.read_namespaced_secret sName p.«namespace» = some data →
      data.lookup sKey = some stored →
      b64DecodeStr stored = some plain →
      (collect_comprehensive_information c).pod_env_vars.lookup
        (envKey (podBaseName p.name) cont.name e.name) = some plain) := by
  constructor
  · intro c pns base vols cont gvm genv pre post e sName sKey stored plain data
      hsplit hpost hval hvf hread hlookup hdec
    have hres : resolveEnv c pns e = some plain := by
      simp [resolveEnv, hval, hvf, hread, hlookup, hdec]
    rw [buildContainer_eq]
    dsimp only [containerDetailsOf]
    have henv : localEnvWrites c pns cont =
        pre.flatMap (localEnvWriteOfEntry c pns) ++
          (e.name, plain) :: post.flatMap (localEnvWriteOfEntry c pns) := by
      unfold localEnvWrites
      rw [hsplit, List.flatMap_append, List.flatMap_cons]
      have : localEnvWriteOfEntry c pns e = [(e.name, plain)] := by
        simp [localEnvWriteOfEntry, hres]
      rw [this]
      rfl
    rw [henv]
    apply lookup_last_write
    intro pair hmem
    rcases List.mem_flatMap.mp hmem with ⟨e2, he2, hw⟩
    rcases mem_localWriteOfEntry hw with ⟨_, hkey⟩
    rw [hkey]
    exact hpost e2 he2
  · intro c nss p cont pre post e sName sKey stored plain data hns hp hconts
      hsplit hpost hval hvf hread hlookup hdec
    have hres : resolveEnv c p.«namespace» e = some plain := by
      simp [resolveEnv, hval, hvf, hread, hlookup, hdec]
    rw [collect_ok c nss [p] hns hp]
    dsimp only
    have henv : envWrites c [p] =
        pre.flatMap (envWritesOfEntry c p.«namespace» (podBaseName p.name)
          cont.name) ++
        (envKey (podBaseName p.name) cont.name e.name, plain) ::
          post.flatMap (envWritesOfEntry c p.«namespace» (podBaseName p.name)
            cont.name) := by
      unfold envWrites envWritesOfPod envWritesOfContainer
      rw [List.flatMap_cons, List.flatMap_nil, List.append_nil, hconts,
        List.flatMap_cons, List.flatMap_nil, List.append_nil, hsplit,
        List.flatMap_append, List.flatMap_cons]
      have : envWritesOfEntry c p.«namespace» (podBaseName p.name) cont.name e =
          [(envKey (podBaseName p.name) cont.name e.name, plain)] := by
        simp [envWritesOfEntry, hres]
      rw [this]
      rfl
    rw [henv]
    apply lookup_last_write
    intro pair hmem
    rcases List.mem_flatMap.mp hmem with ⟨e2, he2, hw⟩
    rcases mem_envWritesOfEntry hw with ⟨_, hkey⟩
    rw [hkey]
    intro hk
    exact hpost e2 he2 (envKey_inj hk)

/-- Claim C8 witness: the secret-backed variable `PASS` stores the
base64-decoded plaintext `hello` of the stored value `aGVsbG8=`, in the
container env dictionary and in `pod_env_vars` of the concrete
cluster. -/
theorem C8_witness :
    b64DecodeStr "aGVsbG8=" = some "hello" ∧
    (buildContainer exClusterSecret "prod" "app" [] exContSecret [] []).1.env.lookup
      "PASS" = some "hello" ∧
    (collect_comprehensive_information exClusterSecret).pod_env_vars.lookup
      (envKey (podBaseName exPodSecret.name) exContSecret.name "PASS") =
      some "hello" := by
  refine ⟨by decide, ?_, ?_⟩
  · exact C8_secret_decoded.1 exClusterSecret "prod" "app" [] exContSecret [] []
      [] [] exEnvSecret "s1" "pw" "aGVsbG8=" "hello" [("pw", "aGVsbG8=")]
      rfl (by decide) rfl rfl (by decide) (by decide) (by decide)
  · exact C8_secret_decoded.2 exClusterSecret [] exPodSecret exContSecret
      [] [] exEnvSecret "s1" "pw" "aGVsbG8=" "hello" [("pw", "aGVsbG8=")]
      rfl rfl rfl rfl (by decide) rfl rfl (by decide) (by decide) (by decide)

/-! ## Claim C9 -/

/-- Claim C9 counterexample: with service `Harbor` in `ns1` and service
`harbor` in `ns2`, both services are collected, but
`service_to_namespace["harbor"]` is `ns2` — the later service's write
overwrote the lower-cased entry of `Harbor`, so `Harbor`'s lower-cased
name does NOT map to `Harbor`'s namespace `ns1`. -/
theorem C9_counterexample :
    (collect_comprehensive_information exClusterSvcCase).services =
      [⟨"Harbor", "ns1", []⟩, ⟨"harbor", "ns2", []⟩] ∧
    (collect_comprehensive_information exClusterSvcCase).service_to_namespace.lookup
      "harbor" = some "ns2" ∧
    "ns2" ≠ "ns1" := by
  refine ⟨?_, ?_, ?_⟩ <;> decide

/-- Claim C9 (amended): `service_to_namespace` is exactly the reversal of
the chronological write list that records, per collected service, first
its original-case name and then its lower-cased name, each mapped to the
namespace being listed.  Hence every collected service has entries under
both its original-case and lower-cased names, and each key maps to the
namespace of the LAST service write with that key (last-write-wins); when
no later write shares the key, both of a service's entries map to its own
namespace. -/
theorem C9_service_map_amended (c : Cluster) (nss : List NamespaceInfo)
    (pods : List Pod)
    (hns : c.list_namespace = Except.ok nss)
    (hp : c.list_pod_for_all_namespaces = Except.ok pods) :
    ((collect_comprehensive_information c).service_to_namespace =
      (serviceWrites c (nss.map (fun n => n.name))).reverse) ∧
    (∀ (ns0 : String) (svcs : List ServiceSpec) (s : ServiceSpec),
      ns0 ∈ nss.map (fun n => n.name) →
      c.list_namespaced_service ns0 = Except.ok svcs →
      s ∈ svcs →
      (s.name, ns0) ∈ serviceWrites c (nss.map (fun n => n.name)) ∧
      (strLower s.name, ns0) ∈ serviceWrites c (nss.map (fun n => n.name))) ∧
    (∀ pair ∈ serviceWrites c (nss.map (fun n => n.name)),
      ∃ u, (collect_comprehensive_information c).service_to_namespace.lookup
        pair.1 = some u) ∧
    (∀ (k n : String) (w1 w2 : List (String × String)),
      serviceWrites c (nss.map (fun n => n.name)) = w1 ++ (k, n) :: w2 →
      (∀ pair ∈ w2, pair.1 ≠ k) →
      (collect_comprehensive_information c).service_to_namespace.lookup k =
        some n) := by
  have hchar : (collect_comprehensive_information c).service_to_namespace =
      (serviceWrites c (nss.map (fun n => n.name))).reverse := by
    rw [collect_ok c nss pods hns hp]
  refine ⟨hchar, ?_, ?_, ?_⟩
  · intro ns0 svcs s hns0 hok hs
    constructor
    · refine List.mem_flatMap.mpr ⟨ns0, hns0, ?_⟩
      unfold serviceWritesNs
      rw [hok]
      exact List.mem_flatMap.mpr ⟨s, hs, by simp⟩
    · refine List.mem_flatMap.mpr ⟨ns0, hns0, ?_⟩
      unfold serviceWritesNs
      rw [hok]
      exact List.mem_flatMap.mpr ⟨s, hs, by simp⟩
  · intro pair hmem
    rw [hchar]
    have : (pair.1, pair.2) ∈
        (serviceWrites c (nss.map (fun n => n.name))).reverse := by
      rw [List.mem_reverse]
      exact hmem
    exact exists_lookup_of_mem this
  · intro k n w1 w2 hdecomp hne
    rw [hchar, hdecomp]
    exact lookup_last_write k n w1 w2 hne

/-- Claim C9 witness: the amended statement at the concrete cluster with
the single service `Harbor` in `harbor-system`; both `Harbor` and
`harbor` map to `harbor-system`. -/
theorem C9_witness :
    (collect_comprehensive_information exClusterHarborSvc).service_to_namespace.lookup
      "harbor" = some "harbor-system" ∧
    (collect_comprehensive_information exClusterHarborSvc).service_to_namespace.lookup
      "Harbor" = some "harbor-system" := by
  constructor
  · exact (C9_service_map_amended exClusterHarborSvc [⟨"harbor-system", []⟩] []
      rfl rfl).2.2.2 "harbor" "harbor-system" [("Harbor", "harbor-system")] []
      (by decide) (by decide)
  · exact (C9_service_map_amended exClusterHarborSvc [⟨"harbor-system", []⟩] []
      rfl rfl).2.2.2 "Harbor" "harbor-system" []
      [("harbor", "harbor-system")] (by decide) (by decide)

/-! ## Claim C5 -/

/-- Claim C5 counterexample: in the concrete cluster whose pod listing
raises while the per-namespace service, deployment and secret listings
would all succeed, the snapshot contains no services, deployments or
secrets: the failure of the pod fetch prevented the fetching of the other
kinds (the outer exception handler at line 255 returns early). -/
theorem C5_counterexample :
    (collect_comprehensive_information exClusterPodsFail).services = [] ∧
    (collect_comprehensive_information exClusterPodsFail).deployments = [] ∧
    (collect_comprehensive_information exClusterPodsFail).secrets = [] ∧
    exClusterPodsFail.list_namespaced_service "n1" =
      Except.ok [⟨"websvc", []⟩] ∧
    exClusterPodsFail.list_namespaced_deployment "n1" =
      Except.ok [⟨"dep1", "n1", some 1, some 1, []⟩] ∧
    exClusterPodsFail.list_namespaced_secret "n1" =
      Except.ok [⟨"sec1", "n1", "Opaque"⟩] ∧
    (collect_comprehensive_information exClusterPodsFail).namespaces =
      [⟨"n1", []⟩] := by
  refine ⟨by decide, by decide, by decide, rfl, rfl, rfl, by decide⟩

/-- Claim C5 (amended): the fetcher never propagates an exception (the
builder is a total function returning a snapshot on every input), but a
pod-listing failure aborts the collection of every later kind: the
returned snapshot keeps only the namespaces.  Per-namespace service
listing failures, in contrast, are isolated: two clusters that differ
only in their service listings produce snapshots identical in every field
except `services` and `service_to_namespace`. -/
theorem C5_fetch_isolation :
    (∀ (c : Cluster) (nss : List NamespaceInfo) (e : Unit),
      c.list_namespace = Except.ok nss →
      c.list_pod_for_all_namespaces = Except.error e →
      collect_comprehensive_information c =
        { emptyClusterInfo with namespaces := nss }) ∧
    (∀ c1 c2 : Cluster,
      c1.list_namespace = c2.list_namespace →
      c1.list_pod_for_all_namespaces = c2.list_pod_for_all_namespaces →
      c1.read_namespaced_config_map = c2.read_namespaced_config_map →
      c1.read_namespaced_secret = c2.read_namespaced_secret →
      c1.list_namespaced_deployment = c2.list_namespaced_deployment →
      c1.list_namespaced_secret = c2.list_namespaced_secret →
      (collect_comprehensive_information c1).namespaces =
        (collect_comprehensive_information c2).namespaces ∧
      (collect_comprehensive_information c1).running_pod_count =
        (collect_comprehensive_information c2).running_pod_count ∧
      (collect_comprehensive_information c1).total_pod_count =
        (collect_comprehensive_information c2).total_pod_count ∧
      (collect_comprehensive_information c1).deployments =
        (collect_comprehensive_information c2).deployments ∧
      (collect_comprehensive_information c1).secrets =
        (collect_comprehensive_information c2).secrets ∧
      (collect_comprehensive_information c1).pods =
        (collect_comprehensive_information c2).pods ∧
      (collect_comprehensive_information c1).pod_details =
        (collect_comprehensive_information c2).pod_details ∧
      (collect_comprehensive_information c1).volume_mounts =
        (collect_comprehensive_information c2).volume_mounts ∧
      (collect_comprehensive_information c1).pod_env_vars =
        (collect_comprehensive_information c2).pod_env_vars ∧
      (collect_comprehensive_information c1).pod_status =
        (collect_comprehensive_information c2).pod_status) := by
  constructor
  · intro c nss e hns hp
    exact collect_err_pods c nss e hns hp
  · intro c1 c2 h1 h2 h3 h4 h5 h6
    have hres : resolveEnv c1 = resolveEnv c2 := by
      funext pns e
      unfold resolveEnv
      rw [h3, h4]
    have hloc : localEnvWrites c1 = localEnvWrites c2 := by
      funext pns cont
      unfold localEnvWrites localEnvWriteOfEntry
      rw [hres]
    have hglob : envWrites c1 = envWrites c2 := by
      funext pods
      unfold envWrites envWritesOfPod envWritesOfContainer envWritesOfEntry
      rw [hres]
    have hdet : detailWrites c1 = detailWrites c2 := by
      funext pods
      unfold detailWrites detailWritesOfPod containerDetailsOf
      rw [hloc]
    have hdep : depListOf c1 = depListOf c2 := by
      funext l
      unfold depListOf
      rw [h5]
    have hsec : secListOf c1 = secListOf c2 := by
      funext l
      unfold secListOf
      rw [h6]
    cases hns : c1.list_namespace with
    | error e =>
      rw [collect_err_ns c1 e hns, collect_err_ns c2 e (h1 ▸ hns)]
      simp
    | ok nss =>
      cases hp : c1.list_pod_for_all_namespaces with
      | error e =>
        rw [collect_err_pods c1 nss e hns hp,
          collect_err_pods c2 nss e (h1 ▸ hns) (h2 ▸ hp)]
        simp
      | ok pods =>
        rw [collect_ok c1 nss pods hns hp,
          collect_ok c2 nss pods (h1 ▸ hns) (h2 ▸ hp)]
        dsimp only
        rw [hdet, hdep, hsec, hglob]
        simp

/-- Claim C5 witness: the amended statement at the concrete clusters —
the aborting cluster keeps only its namespaces, and the two clusters
differing only in the service listing agree on every non-service
field. -/
theorem C5_witness :
    collect_comprehensive_information exClusterPodsFail =
      { emptyClusterInfo with namespaces := [⟨"n1", []⟩] } ∧
    (collect_comprehensive_information exClusterSvcFail).deployments =
      (collect_comprehensive_information exClusterSvcGood).deployments ∧
    (collect_comprehensive_information exClusterSvcFail).secrets =
      (collect_comprehensive_information exClusterSvcGood).secrets ∧
    (collect_comprehensive_information exClusterSvcFail).pods =
      (collect_comprehensive_information exClusterSvcGood).pods := by
  refine ⟨?_, ?_, ?_, ?_⟩
  · exact C5_fetch_isolation.1 exClusterPodsFail [⟨"n1", []⟩] () rfl rfl
  · exact (C5_fetch_isolation.2 exClusterSvcFail exClusterSvcGood
      rfl rfl rfl rfl rfl rfl).2.2.2.1
  · exact (C5_fetch_isolation.2 exClusterSvcFail exClusterSvcGood
      rfl rfl rfl rfl rfl rfl).2.2.2.2.1
  · exact (C5_fetch_isolation.2 exClusterSvcFail exClusterSvcGood
      rfl rfl rfl rfl rfl rfl).2.2.2.2.2.1

end ClusterSnapshot
